import Mathlib

/-
Verification of the NPK sensor-to-cloud telemetry relay.

Shallow embedding of the three core modules:
  * npk_reader.py    - NPKSensorReader: per-channel Modbus reads, batch read
  * mqtt_publisher.py - ThingsBoardMQTTPublisher: connect / publish / state
  * main.py          - NPKMonitor: poll -> validate -> publish cycle, statistics

Modelling conventions:
  * Sensor values are integers (register reads with 0 or 1 decimals are
    passed through without arithmetic, so Int is faithful up to scaling).
  * The Modbus transport is an oracle `Instrument` mapping
    (address, decimals, signed) to `Option Int`; `none` models the
    exception path of `_read_register` (caught, logged, returns None).
  * Python dicts with insertion order are association lists with unique keys.
  * The MQTT client is an oracle `PubEnv`: whether `client.connect` raises,
    at which 0.1 s tick the asynchronous on_connect acknowledgment sets the
    connected flag, and the result code of `client.publish`
    (`none` = the call raised).
  * Wall-clock time in `connect` is discretised into ticks of 0.1 s,
    matching the `time.sleep(0.1)` polling loop; `timeout` seconds is
    `10 * timeout` ticks.
  * Transport interactions are recorded in a trace of `TCall`s so that
    "performs no publish call" is a statement about the trace.
-/

namespace NPK

/-- Modbus transport oracle: address, decimals, signed flag to read outcome.
`none` is the error path of `NPKSensorReader._read_register`. -/
abbrev Instrument := Nat → Nat → Bool → Option Int

/-- Register map. The three mandatory channels are always configured
(the Python code indexes `self.registers` with them unconditionally);
the optional channels may be absent, mirroring the `... in self.registers`
guards of `read_temperature` / `read_moisture` / `read_ph` / `read_ec`. -/
structure Registers where
  nitrogen : Nat
  phosphorus : Nat
  potassium : Nat
  temperature : Option Nat
  moisture : Option Nat
  ph : Option Nat
  ec : Option Nat
  deriving DecidableEq, Repr

/-- `NPKSensorReader.DEFAULT_REGISTERS` from npk_reader.py. -/
def DEFAULT_REGISTERS : Registers :=
  { nitrogen := 0x001E
    phosphorus := 0x001F
    potassium := 0x0020
    temperature := some 0x0012
    moisture := some 0x0013
    ph := some 0x0006
    ec := some 0x0015 }

/-- `NPKSensorReader._read_register`: one transport read, `none` on error. -/
def read_register (inst : Instrument) (address decimals : Nat) (signed : Bool) :
    Option Int :=
  inst address decimals signed

/-- `NPKSensorReader.read_nitrogen`. -/
def read_nitrogen (inst : Instrument) (regs : Registers) : Option Int :=
  read_register inst regs.nitrogen 0 false

/-- `NPKSensorReader.read_phosphorus`. -/
def read_phosphorus (inst : Instrument) (regs : Registers) : Option Int :=
  read_register inst regs.phosphorus 0 false

/-- `NPKSensorReader.read_potassium`. -/
def read_potassium (inst : Instrument) (regs : Registers) : Option Int :=
  read_register inst regs.potassium 0 false

/-- `NPKSensorReader.read_temperature`: only reads when configured. -/
def read_temperature (inst : Instrument) (regs : Registers) : Option Int :=
  match regs.temperature with
  | some a => read_register inst a 1 false
  | none => none

/-- `NPKSensorReader.read_moisture`: only reads when configured. -/
def read_moisture (inst : Instrument) (regs : Registers) : Option Int :=
  match regs.moisture with
  | some a => read_register inst a 1 false
  | none => none

/-- `NPKSensorReader.read_ph`: only reads when configured. -/
def read_ph (inst : Instrument) (regs : Registers) : Option Int :=
  match regs.ph with
  | some a => read_register inst a 1 false
  | none => none

/-- `NPKSensorReader.read_ec`: only reads when configured. -/
def read_ec (inst : Instrument) (regs : Registers) : Option Int :=
  match regs.ec with
  | some a => read_register inst a 0 false
  | none => none

/-- A reading batch: a Python dict in insertion order, each entry a channel
name mapped to its value or to `none` when the read failed. -/
abbrev Batch := List (String × Option Int)

/-- `NPKSensorReader.read_npk`: a dict with exactly the three NPK keys. -/
def read_npk (inst : Instrument) (regs : Registers) : Batch :=
  [("nitrogen", read_nitrogen inst regs),
   ("phosphorus", read_phosphorus inst regs),
   ("potassium", read_potassium inst regs)]

/-- Helper for the `if <value> is not None: data[k] = <value>` pattern of
`read_all_sensors`: the entry is appended only when the read succeeded. -/
def optEntry (k : String) (v : Option Int) : Batch :=
  match v with
  | some x => [(k, some x)]
  | none => []

/-- `NPKSensorReader.read_all_sensors`: NPK dict plus the optional channels
that are configured and whose read succeeded. -/
def read_all_sensors (inst : Instrument) (regs : Registers) : Batch :=
  read_npk inst regs
    ++ optEntry "temperature" (read_temperature inst regs)
    ++ optEntry "moisture" (read_moisture inst regs)
    ++ optEntry "ph" (read_ph inst regs)
    ++ optEntry "ec" (read_ec inst regs)

/-- Number of configured channels of a register map: the three mandatory
ones plus every optional channel present in the map. -/
def numChannels (regs : Registers) : Nat :=
  3 + (if regs.temperature.isSome then 1 else 0)
    + (if regs.moisture.isSome then 1 else 0)
    + (if regs.ph.isSome then 1 else 0)
    + (if regs.ec.isSome then 1 else 0)

/-- The mandatory channel names. -/
def mandatoryNames : List String := ["nitrogen", "phosphorus", "potassium"]

/-- Connection-relevant state of `ThingsBoardMQTTPublisher`: the `connected`
flag, the cumulative `publish_count`, the `last_publish_time` (an abstract
instant, `none` initially) and the configured QoS level. -/
structure PubState where
  connected : Bool
  publish_count : Nat
  last_publish_time : Option Int
  qos : Nat
  deriving DecidableEq, Repr

/-- MQTT client oracle: whether `client.connect` raises, the 0.1 s tick at
which the broker acknowledgment (`_on_connect` with rc = 0) sets the
connected flag (`none` = never), and the result code of `client.publish`
(`none` = the call raised an exception). -/
structure PubEnv where
  connectRaises : Bool
  ackTick : Option Nat
  publishOutcome : Option Nat
  deriving DecidableEq, Repr

/-- One interaction with the MQTT transport. -/
inductive TCall where
  | connectCall : TCall
  | publishCall (topic : String) (payload : String) (qos : Nat) : TCall
  deriving DecidableEq, Repr

/-- Whether a transport call is a publish. -/
def TCall.isPub : TCall → Bool
  | TCall.publishCall _ _ _ => true
  | TCall.connectCall => false

/-- The ThingsBoard telemetry topic of `publish_telemetry`. -/
def telemetryTopic : String := "v1/devices/me/telemetry"

/-- The ThingsBoard attributes topic of `publish_attributes`. -/
def attributesTopic : String := "v1/devices/me/attributes"

/-- The JSON payload shape built in `publish_telemetry`: either the raw
key-value map or the timestamp wrapper. -/
inductive Payload where
  | raw (data : List (String × Int)) : Payload
  | withTs (ts : Int) (data : List (String × Int)) : Payload
  deriving DecidableEq, Repr

/-- The `if timestamp:` branch of `publish_telemetry` (lines 181-189).
Python truthiness: `None` and `0` both select the raw payload. -/
def preparePayload (data : List (String × Int)) (timestamp : Option Int) :
    Payload :=
  match timestamp with
  | some t => if t = 0 then Payload.raw data else Payload.withTs t data
  | none => Payload.raw data

/-- `json.dumps` of a flat object of integers, with Python's default
item separator `", "` and key separator `": "`. -/
def dumpsPairs (data : List (String × Int)) : String :=
  "\x7b" ++
    String.intercalate ", "
      (data.map (fun p => "\"" ++ p.1 ++ "\": " ++ toString p.2)) ++
  "\x7d"

/-- `json.dumps` of a telemetry payload. -/
def dumps : Payload → String
  | Payload.raw data => dumpsPairs data
  | Payload.withTs t data =>
      "\x7b\"ts\": " ++ toString t ++ ", \"values\": " ++ dumpsPairs data ++
      "\x7d"

/-- Result of a publish operation: returned Bool, publisher state after the
call, transport calls made. -/
structure PubResult where
  ok : Bool
  state : PubState
  calls : List TCall
  deriving DecidableEq, Repr

/-- `ThingsBoardMQTTPublisher.publish_telemetry`.
Returns False immediately when not connected, with no transport call.
Otherwise encodes the payload, publishes to the telemetry topic, and on
result code 0 (MQTT_ERR_SUCCESS) sets `last_publish_time` to the current
instant `now`, increments `publish_count` and returns True; on a nonzero
result code or an exception it returns False with the state unchanged. -/
def publish_telemetry (env : PubEnv) (s : PubState)
    (data : List (String × Int)) (timestamp : Option Int) (now : Int) :
    PubResult :=
  if !s.connected then
    { ok := false, state := s, calls := [] }
  else
    let json_payload := dumps (preparePayload data timestamp)
    let call := TCall.publishCall telemetryTopic json_payload s.qos
    match env.publishOutcome with
    | none => { ok := false, state := s, calls := [call] }
    | some rc =>
        if rc = 0 then
          { ok := true
            state := { s with
                        publish_count := s.publish_count + 1
                        last_publish_time := some now }
            calls := [call] }
        else
          { ok := false, state := s, calls := [call] }

/-- `ThingsBoardMQTTPublisher.publish_attributes`: same guard and transport
interaction as telemetry but on the attributes topic, never wrapping a
timestamp and never touching `publish_count` / `last_publish_time`. -/
def publish_attributes (env : PubEnv) (s : PubState)
    (data : List (String × Int)) : PubResult :=
  if !s.connected then
    { ok := false, state := s, calls := [] }
  else
    let json_payload := dumpsPairs data
    let call := TCall.publishCall attributesTopic json_payload s.qos
    match env.publishOutcome with
    | none => { ok := false, state := s, calls := [call] }
    | some rc =>
        if rc = 0 then { ok := true, state := s, calls := [call] }
        else { ok := false, state := s, calls := [call] }

/-- `ThingsBoardMQTTPublisher.is_connected`. -/
def is_connected (s : PubState) : Bool := s.connected

/-- The connected flag as seen at tick `k` (0.1 s units) after `connect`
started waiting: it was `c0` at entry and flips to true once the
asynchronous acknowledgment arrives at `ackTick`. -/
def connectedAt (c0 : Bool) (ackTick : Option Nat) (k : Nat) : Bool :=
  c0 || (match ackTick with
         | some a => decide (a ≤ k)
         | none => false)

/-- The `while not self.connected and (time.time() - start_time) < timeout`
polling loop of `connect`, discretised to 0.1 s ticks: `k` is the current
tick, `fuel` the remaining ticks before the deadline. Returns the final
flag value (the `if self.connected` re-read after the loop) and the tick
at which the loop exited. -/
def connectWait (c0 : Bool) (ackTick : Option Nat) : Nat → Nat → Bool × Nat
  | k, fuel =>
      if connectedAt c0 ackTick k then (true, k)
      else
        match fuel with
        | 0 => (false, k)
        | fuel + 1 => connectWait c0 ackTick (k + 1) fuel

/-- Result of `connect`: returned Bool, elapsed ticks of 0.1 s, state after
the call, transport calls made. -/
structure ConnectResult where
  ok : Bool
  elapsedTicks : Nat
  state : PubState
  calls : List TCall
  deriving DecidableEq, Repr

/-- `ThingsBoardMQTTPublisher.connect(timeout)`: unconditionally issues
`client.connect` (recorded in the trace), then polls the connected flag
every 0.1 s for up to `timeout` seconds, returning the flag's value. Any
exception from the transport is caught and yields False. -/
def connect (env : PubEnv) (s : PubState) (timeout : Nat) : ConnectResult :=
  if env.connectRaises then
    { ok := false, elapsedTicks := 0, state := s, calls := [TCall.connectCall] }
  else
    let r := connectWait s.connected env.ackTick 0 (10 * timeout)
    { ok := r.1
      elapsedTicks := r.2
      state := { s with connected := r.1 }
      calls := [TCall.connectCall] }

/-- The `self.stats` dictionary of `NPKMonitor` (the counters; the start
time plays no role in the claims). -/
structure Stats where
  readings_count : Nat
  publish_success : Nat
  publish_failed : Nat
  sensor_errors : Nat
  deriving DecidableEq, Repr

/-- The counters at `NPKMonitor.__init__`. -/
def stats0 : Stats :=
  { readings_count := 0
    publish_success := 0
    publish_failed := 0
    sensor_errors := 0 }

/-- `dict.get(k)` on a reading batch: `none` when the key is absent or its
stored value is None. -/
def getBatch (data : Batch) (k : String) : Option Int :=
  match data.lookup k with
  | some v => v
  | none => none

/-- The `{k: v for k, v in data.items() if v is not None}` comprehension of
`_read_sensor_data` (line 156). -/
def stripNone (data : Batch) : List (String × Int) :=
  data.filterMap (fun p => p.2.map (fun v => (p.1, v)))

/-- `NPKMonitor._read_sensor_data`: reads all sensors; if none of the three
mandatory values is present, counts a sensor error and returns None;
otherwise strips absent entries, counts a reading, and returns the data. -/
def read_sensor_data (inst : Instrument) (regs : Registers) (st : Stats) :
    Option (List (String × Int)) × Stats :=
  let data := read_all_sensors inst regs
  if (getBatch data "nitrogen").isNone && (getBatch data "phosphorus").isNone
      && (getBatch data "potassium").isNone then
    (none, { st with sensor_errors := st.sensor_errors + 1 })
  else
    (some (stripNone data), { st with readings_count := st.readings_count + 1 })

/-- Monitor configuration relevant to one cycle: the register map and the
`mqtt.include_timestamp` flag. -/
structure MonConfig where
  regs : Registers
  include_timestamp : Bool
  deriving DecidableEq, Repr

/-- External nondeterminism of one cycle: the Modbus transport outcomes,
the MQTT client outcomes, and the current epoch-milliseconds clock. -/
structure CycleEnv where
  inst : Instrument
  pubEnv : PubEnv
  now : Int

/-- State owned by the monitor across cycles: its counters and the
publisher's state. -/
structure MonState where
  stats : Stats
  pub : PubState
  deriving DecidableEq, Repr

/-- `NPKMonitor._ensure_mqtt_connection`: reconnect (default timeout) only
when the publisher reports disconnected. -/
def ensure_mqtt_connection (env : PubEnv) (s : PubState) :
    PubState × List TCall :=
  if !is_connected s then
    let r := connect env s 10
    (r.state, r.calls)
  else
    (s, [])

/-- `NPKMonitor._publish_data`: optional timestamp from config, one
`publish_telemetry` call, success / failure counter update. -/
def publish_data (cfg : MonConfig) (env : CycleEnv) (pub : PubState)
    (data : List (String × Int)) (st : Stats) :
    Bool × PubState × Stats × List TCall :=
  let timestamp := if cfg.include_timestamp then some env.now else none
  let r := publish_telemetry env.pubEnv pub data timestamp env.now
  if r.ok then
    (true, r.state, { st with publish_success := st.publish_success + 1 },
     r.calls)
  else
    (false, r.state, { st with publish_failed := st.publish_failed + 1 },
     r.calls)

/-- One iteration of the `while self.running` body of `NPKMonitor.start`
(lines 218-239): ensure the MQTT connection, read sensor data, and publish
when the read produced a non-empty dict (`if data:`). -/
def cycle (cfg : MonConfig) (env : CycleEnv) (m : MonState) :
    MonState × List TCall :=
  let ec := ensure_mqtt_connection env.pubEnv m.pub
  let rd := read_sensor_data env.inst cfg.regs m.stats
  match rd.1 with
  | none => ({ stats := rd.2, pub := ec.1 }, ec.2)
  | some data =>
      if data.isEmpty then ({ stats := rd.2, pub := ec.1 }, ec.2)
      else
        let pr := publish_data cfg env ec.1 data rd.2
        ({ stats := pr.2.2.1, pub := pr.2.1 }, ec.2 ++ pr.2.2.2)

/-- A run of the monitor loop over a list of per-cycle environments. -/
def run (cfg : MonConfig) (envs : List CycleEnv) (m : MonState) : MonState :=
  envs.foldl (fun m e => (cycle cfg e m).1) m

/-- Pointwise order on the statistics counters. -/
def statsLe (a b : Stats) : Prop :=
  a.readings_count ≤ b.readings_count ∧
  a.publish_success ≤ b.publish_success ∧
  a.publish_failed ≤ b.publish_failed ∧
  a.sensor_errors ≤ b.sensor_errors

/-- The publish-counter bound of the statistics. -/
def statsInv (s : Stats) : Prop :=
  s.publish_success + s.publish_failed ≤ s.readings_count

/-- A transport on which every register read fails. -/
def instFail : Instrument := fun _ _ _ => none

/-- A transport on which only the default temperature register (0x0012)
reads successfully, with value 25. -/
def instTempOnly : Instrument := fun a _ _ =>
  if a = 0x0012 then some 25 else none

/-- Register map with only the three mandatory channels configured, at the
addresses 30 / 31 / 32 of the C5 scenario. -/
def regsNPKOnly : Registers :=
  { nitrogen := 30
    phosphorus := 31
    potassium := 32
    temperature := none
    moisture := none
    ph := none
    ec := none }

/-- Transport of the partial-read scenario: nitrogen reads 120, phosphorus
fails, potassium reads 75. -/
def instScenario : Instrument := fun a _ _ =>
  if a = 30 then some 120 else if a = 32 then some 75 else none

/-- An MQTT environment where nothing fails: connect does not raise, the
broker acknowledges immediately, publish returns result code 0. -/
def envOk : PubEnv :=
  { connectRaises := false, ackTick := some 0, publishOutcome := some 0 }

/-- An MQTT environment whose broker never acknowledges the connection. -/
def envNoAck : PubEnv :=
  { connectRaises := false, ackTick := none, publishOutcome := some 0 }

/-- A connected publisher state with QoS 1 and no publishes yet. -/
def pubConn : PubState :=
  { connected := true, publish_count := 0, last_publish_time := none, qos := 1 }

/-- A disconnected publisher state with QoS 1 and no publishes yet. -/
def pubDisc : PubState :=
  { connected := false, publish_count := 0, last_publish_time := none, qos := 1 }

/-- `connect` always makes exactly one transport connect call. -/
theorem connect_calls_eq (env : PubEnv) (s : PubState) (t : Nat) :
    (connect env s t).calls = [TCall.connectCall] := by
  unfold connect
  split <;> rfl

/-- `_ensure_mqtt_connection` never performs a publish call. -/
theorem ensure_mqtt_connection_no_pub (env : PubEnv) (s : PubState) :
    ((ensure_mqtt_connection env s).2).all (fun c => !c.isPub) = true := by
  unfold ensure_mqtt_connection
  split
  · simp [connect_calls_eq, TCall.isPub]
  · rfl

/-- `_read_sensor_data` either reports no data and counts a sensor error,
or reports data and counts a reading. -/
theorem read_sensor_data_stats_cases (inst : Instrument) (regs : Registers)
    (st : Stats) :
    ((read_sensor_data inst regs st).1 = none ∧
      (read_sensor_data inst regs st).2 =
        { st with sensor_errors := st.sensor_errors + 1 }) ∨
    ((read_sensor_data inst regs st).1.isSome = true ∧
      (read_sensor_data inst regs st).2 =
        { st with readings_count := st.readings_count + 1 }) := by
  by_cases h : ((getBatch (read_all_sensors inst regs) "nitrogen").isNone &&
      (getBatch (read_all_sensors inst regs) "phosphorus").isNone &&
      (getBatch (read_all_sensors inst regs) "potassium").isNone) = true
  · left; simp [read_sensor_data, h]
  · right; simp [read_sensor_data, h]

/-- `_publish_data` increments exactly one of the publish counters. -/
theorem publish_data_stats_cases (cfg : MonConfig) (env : CycleEnv)
    (pub : PubState) (data : List (String × Int)) (st : Stats) :
    (publish_data cfg env pub data st).2.2.1 =
        { st with publish_success := st.publish_success + 1 } ∨
    (publish_data cfg env pub data st).2.2.1 =
        { st with publish_failed := st.publish_failed + 1 } := by
  by_cases h : (publish_telemetry env.pubEnv pub data
      (if cfg.include_timestamp then some env.now else none) env.now).ok = true
  · left; simp [publish_data, h]
  · right; simp [publish_data, h]

/-- One cycle is monotone on the counters and preserves the publish bound. -/
theorem cycle_stats_step (cfg : MonConfig) (env : CycleEnv) (m : MonState) :
    statsLe m.stats ((cycle cfg env m).1).stats ∧
    (statsInv m.stats → statsInv ((cycle cfg env m).1).stats) := by
  rcases read_sensor_data_stats_cases env.inst cfg.regs m.stats with
    ⟨h1, h2⟩ | ⟨h1, h2⟩
  · simp only [cycle, h1, h2]
    dsimp only [statsLe, statsInv]
    refine ⟨⟨?_, ?_, ?_, ?_⟩, fun h => ?_⟩ <;> omega
  · rcases hd : (read_sensor_data env.inst cfg.regs m.stats).1 with _ | d
    · rw [hd] at h1; simp at h1
    · simp only [cycle, hd, h2]
      split
      · dsimp only [statsLe, statsInv]
        refine ⟨⟨?_, ?_, ?_, ?_⟩, fun h => ?_⟩ <;> omega
      · rcases publish_data_stats_cases cfg env
            (ensure_mqtt_connection env.pubEnv m.pub).1 d
            { m.stats with readings_count := m.stats.readings_count + 1 } with
          hp | hp <;>
        · simp only [hp]
          dsimp only [statsLe, statsInv]
          refine ⟨⟨?_, ?_, ?_, ?_⟩, fun h => ?_⟩ <;> omega

/-- The publish bound is preserved along any run. -/
theorem run_statsInv (cfg : MonConfig) (envs : List CycleEnv) (m : MonState)
    (h : statsInv m.stats) : statsInv ((run cfg envs m).stats) := by
  induction envs generalizing m with
  | nil => simpa [run] using h
  | cons e es ih =>
      simp only [run, List.foldl_cons]
      exact ih ((cycle cfg e m).1) ((cycle_stats_step cfg e m).2 h)

/-- Claim C1: in every run of the monitor loop the statistics counters
readings_count, publish_success, publish_failed and sensor_errors are
monotonically non-decreasing at every cycle, and after every sequence of
cycles from the initial counters the inequality
publish_success + publish_failed ≤ readings_count holds. -/
theorem stats_monotone_and_publish_bound :
    (∀ (cfg : MonConfig) (env : CycleEnv) (m : MonState),
      statsLe m.stats ((cycle cfg env m).1).stats) ∧
    (∀ (cfg : MonConfig) (envs : List CycleEnv) (pub : PubState),
      statsInv ((run cfg envs { stats := stats0, pub := pub }).stats)) := by
  constructor
  · intro cfg env m
    exact (cycle_stats_step cfg env m).1
  · intro cfg envs pub
    exact run_statsInv cfg envs _ (by simp [statsInv, stats0])

/-- Claim C2, counterexample: when every register read fails,
`read_all_sensors` still includes an entry for the nitrogen channel whose
read failed (mapped to the absent marker), so the batch is not free of
failed channels. -/
theorem read_all_sensors_keeps_failed_mandatory :
    instFail DEFAULT_REGISTERS.nitrogen 0 false = none ∧
    ("nitrogen", (none : Option Int)) ∈
      read_all_sensors instFail DEFAULT_REGISTERS := by
  exact ⟨rfl, by decide⟩

/-- Claim C2 (amended): for every register map with N configured channels,
`read_all_sensors` returns a batch with at most N entries, and every entry
of a non-mandatory channel has a present value (failed optional channels
are omitted); the mandatory channels are always present as entries,
each mapped to its read outcome — the absent marker when the read
failed. -/
theorem read_all_sensors_bounded (inst : Instrument) (regs : Registers) :
    (read_all_sensors inst regs).length ≤ numChannels regs ∧
    (read_all_sensors inst regs).all
      (fun p => mandatoryNames.contains p.1 || p.2.isSome) = true ∧
    ("nitrogen", read_nitrogen inst regs) ∈ read_all_sensors inst regs ∧
    ("phosphorus", read_phosphorus inst regs) ∈ read_all_sensors inst regs ∧
    ("potassium", read_potassium inst regs) ∈ read_all_sensors inst regs := by
  have hlen : ∀ (k : String) (v : Option Int), (optEntry k v).length ≤ 1 := by
    intro k v; cases v <;> simp [optEntry]
  have hall : ∀ (k : String) (v : Option Int),
      (optEntry k v).all
        (fun p => mandatoryNames.contains p.1 || p.2.isSome) = true := by
    intro k v; cases v <;> simp [optEntry]
  refine ⟨?_, ?_, ?_, ?_, ?_⟩
  · have hT : (optEntry "temperature" (read_temperature inst regs)).length ≤
        (if regs.temperature.isSome then 1 else 0) := by
      cases h : regs.temperature
      · simp [read_temperature, h, optEntry]
      · simpa [h] using hlen _ _
    have hM : (optEntry "moisture" (read_moisture inst regs)).length ≤
        (if regs.moisture.isSome then 1 else 0) := by
      cases h : regs.moisture
      · simp [read_moisture, h, optEntry]
      · simpa [h] using hlen _ _
    have hP : (optEntry "ph" (read_ph inst regs)).length ≤
        (if regs.ph.isSome then 1 else 0) := by
      cases h : regs.ph
      · simp [read_ph, h, optEntry]
      · simpa [h] using hlen _ _
    have hE : (optEntry "ec" (read_ec inst regs)).length ≤
        (if regs.ec.isSome then 1 else 0) := by
      cases h : regs.ec
      · simp [read_ec, h, optEntry]
      · simpa [h] using hlen _ _
    unfold read_all_sensors numChannels
    simp only [List.length_append, read_npk, List.length_cons,
      List.length_nil]
    omega
  · unfold read_all_sensors
    rw [List.all_append, List.all_append, List.all_append, List.all_append,
      hall, hall, hall, hall]
    simp [read_npk, mandatoryNames]
  · simp [read_all_sensors, read_npk]
  · simp [read_all_sensors, read_npk]
  · simp [read_all_sensors, read_npk]

/-- Claim C10, counterexample: with the default register map and a
transport on which the temperature read succeeds, `read_all_sensors`
returns a dictionary with a fourth key, so it does not contain exactly the
three NPK keys. -/
theorem read_all_sensors_not_exactly_three_keys :
    (read_all_sensors instTempOnly DEFAULT_REGISTERS).map Prod.fst =
      ["nitrogen", "phosphorus", "potassium", "temperature"] ∧
    (["nitrogen", "phosphorus", "potassium", "temperature"] : List String) ≠
      mandatoryNames := by
  exact ⟨by decide, by decide⟩

/-- Claim C10 (amended): for every outcome of the per-channel transport
reads, `read_npk` returns a dictionary with exactly the three keys
nitrogen, phosphorus, potassium, each mapped to the read value or to the
absent marker; `read_all_sensors` starts with exactly those three entries
(and may append successful optional channels after them). -/
theorem read_npk_exactly_three_keys (inst : Instrument) (regs : Registers) :
    (read_npk inst regs).map Prod.fst = mandatoryNames ∧
    (read_all_sensors inst regs).take 3 = read_npk inst regs :=
  ⟨rfl, rfl⟩

/-- Claim C3: in a cycle where all three mandatory channel reads fail, the
monitor performs no publish call, increments sensor_errors by exactly 1 and
leaves readings_count, publish_success and publish_failed unchanged. -/
theorem cycle_no_mandatory_values (cfg : MonConfig) (env : CycleEnv)
    (m : MonState)
    (hn : env.inst cfg.regs.nitrogen 0 false = none)
    (hp : env.inst cfg.regs.phosphorus 0 false = none)
    (hk : env.inst cfg.regs.potassium 0 false = none) :
    ((cycle cfg env m).1).stats =
      { m.stats with sensor_errors := m.stats.sensor_errors + 1 } ∧
    ((cycle cfg env m).2).all (fun c => !c.isPub) = true := by
  have e1 : ("phosphorus" == "nitrogen") = false := by decide
  have e2 : ("potassium" == "nitrogen") = false := by decide
  have e3 : ("potassium" == "phosphorus") = false := by decide
  have h1 : getBatch (read_all_sensors env.inst cfg.regs) "nitrogen" = none := by
    simp [getBatch, read_all_sensors, read_npk, read_nitrogen, read_register,
      List.lookup, hn]
  have h2 : getBatch (read_all_sensors env.inst cfg.regs) "phosphorus" = none := by
    simp [getBatch, read_all_sensors, read_npk, read_phosphorus, read_register,
      List.lookup, e1, hp]
  have h3 : getBatch (read_all_sensors env.inst cfg.regs) "potassium" = none := by
    simp [getBatch, read_all_sensors, read_npk, read_potassium, read_register,
      List.lookup, e2, e3, hk]
  have hrd : read_sensor_data env.inst cfg.regs m.stats =
      (none, { m.stats with sensor_errors := m.stats.sensor_errors + 1 }) := by
    simp [read_sensor_data, h1, h2, h3]
  constructor
  · simp only [cycle, hrd]
  · simp only [cycle, hrd]
    exact ensure_mqtt_connection_no_pub env.pubEnv m.pub

/-- Witness for claim C3 at a concrete input: every register read fails. -/
theorem cycle_no_mandatory_values_witness :
    (instFail DEFAULT_REGISTERS.nitrogen 0 false = none ∧
     instFail DEFAULT_REGISTERS.phosphorus 0 false = none ∧
     instFail DEFAULT_REGISTERS.potassium 0 false = none) ∧
    (((cycle { regs := DEFAULT_REGISTERS, include_timestamp := false }
        { inst := instFail, pubEnv := envOk, now := 0 }
        { stats := stats0, pub := pubConn }).1).stats =
      { stats0 with sensor_errors := stats0.sensor_errors + 1 } ∧
     ((cycle { regs := DEFAULT_REGISTERS, include_timestamp := false }
        { inst := instFail, pubEnv := envOk, now := 0 }
        { stats := stats0, pub := pubConn }).2).all
        (fun c => !c.isPub) = true) :=
  ⟨⟨rfl, rfl, rfl⟩,
   cycle_no_mandatory_values
     { regs := DEFAULT_REGISTERS, include_timestamp := false }
     { inst := instFail, pubEnv := envOk, now := 0 }
     { stats := stats0, pub := pubConn } rfl rfl rfl⟩

/-- Claim C4: when the publisher's connected flag is false,
`publish_telemetry` returns false, performs no transport publish call, and
leaves the whole publisher state (including publish_count and
last_publish_time) unchanged. -/
theorem publish_telemetry_not_connected (env : PubEnv) (s : PubState)
    (data : List (String × Int)) (timestamp : Option Int) (now : Int)
    (h : s.connected = false) :
    publish_telemetry env s data timestamp now =
      { ok := false, state := s, calls := [] } := by
  simp [publish_telemetry, h]

/-- Witness for claim C4 at a concrete disconnected publisher. -/
theorem publish_telemetry_not_connected_witness :
    pubDisc.connected = false ∧
    publish_telemetry envOk pubDisc [("nitrogen", 100)] none 0 =
      { ok := false, state := pubDisc, calls := [] } :=
  ⟨rfl,
   publish_telemetry_not_connected envOk pubDisc [("nitrogen", 100)] none 0 rfl⟩

/-- Claim C5: with mandatory registers at addresses 30 / 31 / 32 and
transport values (120, failed, 75), the batch is nitrogen 120 and
potassium 75 with phosphorus omitted after stripping, the mandatory check
passes (a reading is counted), and the cycle publishes exactly the JSON
object with keys nitrogen and potassium. -/
theorem scenario_partial_read_pipeline :
    read_all_sensors instScenario regsNPKOnly =
      [("nitrogen", some 120), ("phosphorus", none), ("potassium", some 75)] ∧
    read_sensor_data instScenario regsNPKOnly stats0 =
      (some [("nitrogen", 120), ("potassium", 75)],
        { stats0 with readings_count := 1 }) ∧
    cycle { regs := regsNPKOnly, include_timestamp := false }
        { inst := instScenario, pubEnv := envOk, now := 0 }
        { stats := stats0, pub := pubConn } =
      ({ stats := { readings_count := 1, publish_success := 1,
                    publish_failed := 0, sensor_errors := 0 },
         pub := { connected := true, publish_count := 1,
                  last_publish_time := some 0, qos := 1 } },
       [TCall.publishCall telemetryTopic
          "\x7b\"nitrogen\": 120, \"potassium\": 75\x7d" 1]) := by
  refine ⟨by decide, by decide, by decide⟩

/-- Claim C6, counterexample: a supplied timestamp of 0 is treated as
absent by the Python truthiness test `if timestamp:`, so the published
payload is the raw map, not the wrapped object. -/
theorem publish_telemetry_zero_timestamp_unwrapped :
    (publish_telemetry envOk pubConn [("nitrogen", 100)] (some 0) 0).calls =
      [TCall.publishCall telemetryTopic
        (dumps (Payload.raw [("nitrogen", 100)])) 1] ∧
    dumps (Payload.raw [("nitrogen", 100)]) ≠
      dumps (Payload.withTs 0 [("nitrogen", 100)]) := by
  exact ⟨by decide, by decide⟩

/-- Claim C6 (amended): for every connected publisher, a supplied nonzero
timestamp yields the wrapped payload (ts, values); a missing timestamp, or
a supplied timestamp of 0, yields the raw key-value map. -/
theorem publish_telemetry_payload_shape (env : PubEnv) (s : PubState)
    (data : List (String × Int)) (t now : Int)
    (h : s.connected = true) :
    (publish_telemetry env s data (some t) now).calls =
      [TCall.publishCall telemetryTopic
        (dumps (if t = 0 then Payload.raw data else Payload.withTs t data))
        s.qos] ∧
    (publish_telemetry env s data none now).calls =
      [TCall.publishCall telemetryTopic (dumps (Payload.raw data)) s.qos] := by
  constructor <;>
  · simp only [publish_telemetry, preparePayload, h]
    cases henv : env.publishOutcome with
    | none => simp
    | some rc =>
        by_cases hrc : rc = 0 <;> simp [hrc]

/-- Witness for claim C6 (amended) at the scenario timestamp. -/
theorem publish_telemetry_payload_shape_witness :
    pubConn.connected = true ∧
    ((publish_telemetry envOk pubConn [("nitrogen", 100)]
        (some 1700000000000) 0).calls =
      [TCall.publishCall telemetryTopic
        (dumps (if (1700000000000 : Int) = 0 then
                  Payload.raw [("nitrogen", 100)]
                else Payload.withTs 1700000000000 [("nitrogen", 100)]))
        pubConn.qos] ∧
     (publish_telemetry envOk pubConn [("nitrogen", 100)] none 0).calls =
      [TCall.publishCall telemetryTopic
        (dumps (Payload.raw [("nitrogen", 100)])) pubConn.qos]) :=
  ⟨rfl,
   publish_telemetry_payload_shape envOk pubConn [("nitrogen", 100)]
     1700000000000 0 rfl⟩

/-- Claim C7, counterexample: calling connect while already connected does
return true immediately, but it is not a no-op — it issues a new transport
connect call. -/
theorem connect_when_connected_calls_transport :
    connect envOk pubConn 10 =
      { ok := true, elapsedTicks := 0, state := pubConn,
        calls := [TCall.connectCall] } ∧
    (connect envOk pubConn 10).calls ≠ [] := by
  exact ⟨by decide, by decide⟩

/-- Claim C7 (amended): calling connect while already connected returns
true immediately (zero elapsed ticks, state unchanged) but still issues
one transport connect call, provided the transport call does not raise. -/
theorem connect_already_connected (env : PubEnv) (s : PubState) (t : Nat)
    (h : s.connected = true) (hr : env.connectRaises = false) :
    connect env s t =
      { ok := true, elapsedTicks := 0, state := s,
        calls := [TCall.connectCall] } := by
  rcases s with ⟨c, pc, lpt, q⟩
  simp only [PubState.connected] at h
  subst h
  have hw : connectWait true env.ackTick 0 (10 * t) = (true, 0) := by
    rw [connectWait.eq_def]
    simp [connectedAt]
  simp [connect, hr, hw]

/-- Witness for claim C7 (amended) at a concrete connected publisher. -/
theorem connect_already_connected_witness :
    (pubConn.connected = true ∧ envOk.connectRaises = false) ∧
    connect envOk pubConn 10 =
      { ok := true, elapsedTicks := 0, state := pubConn,
        calls := [TCall.connectCall] } :=
  ⟨⟨rfl, rfl⟩, connect_already_connected envOk pubConn 10 rfl rfl⟩

/-- The polling loop runs to exhaustion when the flag never becomes true. -/
theorem connectWait_never_acks (fuel k : Nat) :
    connectWait false none k fuel = (false, k + fuel) := by
  induction fuel generalizing k with
  | zero => simp [connectWait, connectedAt]
  | succ n ih =>
      rw [connectWait]
      simp only [connectedAt, Bool.false_or]
      rw [ih]
      simp [Prod.ext_iff]
      omega

/-- Claim C8: if the broker never acknowledges the connection, connect
returns false (raising no exception) after the full timeout has elapsed:
10 t ticks of the 0.1 s polling loop, i.e. t seconds. -/
theorem connect_timeout_no_ack (env : PubEnv) (s : PubState) (t : Nat)
    (h : s.connected = false) (ha : env.ackTick = none)
    (hr : env.connectRaises = false) :
    connect env s t =
      { ok := false, elapsedTicks := 10 * t, state := s,
        calls := [TCall.connectCall] } := by
  rcases s with ⟨c, pc, lpt, q⟩
  simp only [PubState.connected] at h
  subst h
  simp [connect, hr, ha, connectWait_never_acks]

/-- Witness for claim C8: timeout 10 s elapses as 100 ticks. -/
theorem connect_timeout_no_ack_witness :
    (pubDisc.connected = false ∧ envNoAck.ackTick = none ∧
      envNoAck.connectRaises = false) ∧
    connect envNoAck pubDisc 10 =
      { ok := false, elapsedTicks := 100, state := pubDisc,
        calls := [TCall.connectCall] } :=
  ⟨⟨rfl, rfl, rfl⟩, connect_timeout_no_ack envNoAck pubDisc 10 rfl rfl rfl⟩

/-- `publish_telemetry` either succeeds and bumps the delivery-tracking
fields, or fails and leaves the whole state unchanged. -/
theorem publish_telemetry_state_cases (env : PubEnv) (s : PubState)
    (data : List (String × Int)) (timestamp : Option Int) (now : Int) :
    ((publish_telemetry env s data timestamp now).ok = true ∧
      (publish_telemetry env s data timestamp now).state =
        { s with publish_count := s.publish_count + 1,
                 last_publish_time := some now }) ∨
    ((publish_telemetry env s data timestamp now).ok = false ∧
      (publish_telemetry env s data timestamp now).state = s) := by
  by_cases h : s.connected = true
  · cases henv : env.publishOutcome with
    | none => right; simp [publish_telemetry, h, henv]
    | some rc =>
        by_cases hrc : rc = 0
        · left; simp [publish_telemetry, h, henv, hrc]
        · right; simp [publish_telemetry, h, henv, hrc]
  · right
    simp only [Bool.not_eq_true] at h
    simp [publish_telemetry, h]

/-- Claim C9: `publish_attributes` leaves the publisher state — in
particular publish_count and last_publish_time — unchanged whether it
succeeds or fails, while `publish_telemetry` mutates those two fields
exactly when it succeeds. -/
theorem publish_attributes_frame (env : PubEnv) (s : PubState)
    (attrs data : List (String × Int)) (timestamp : Option Int) (now : Int) :
    (publish_attributes env s attrs).state = s ∧
    (publish_telemetry env s data timestamp now).state.publish_count =
      (if (publish_telemetry env s data timestamp now).ok
        then s.publish_count + 1 else s.publish_count) ∧
    (publish_telemetry env s data timestamp now).state.last_publish_time =
      (if (publish_telemetry env s data timestamp now).ok
        then some now else s.last_publish_time) := by
  refine ⟨?_, ?_, ?_⟩
  · by_cases h : s.connected = true
    · cases henv : env.publishOutcome with
      | none => simp [publish_attributes, h, henv]
      | some rc =>
          by_cases hrc : rc = 0 <;> simp [publish_attributes, h, henv, hrc]
    · simp only [Bool.not_eq_true] at h
      simp [publish_attributes, h]
  · rcases publish_telemetry_state_cases env s data timestamp now with
      ⟨hok, hst⟩ | ⟨hok, hst⟩ <;> simp [hok, hst]
  · rcases publish_telemetry_state_cases env s data timestamp now with
      ⟨hok, hst⟩ | ⟨hok, hst⟩ <;> simp [hok, hst]

end NPK
